import Mathlib

/-!
Verification of the test-engine-client plan acquisition, fallback
distribution, command templating, and execution supervision logic,
shallowly embedded from the Go sources.
-/

namespace TestEngineClient

/-! ### Data model (internal/plan, as used by the orchestrator) -/

/-- One unit of work: a test file path (plan.TestCase). -/
structure TestCase where
  path : String
deriving DecidableEq

/-- One worker's assignment (plan.Task): an ordered sequence of test cases. -/
structure Task where
  tests : List TestCase
deriving DecidableEq

/-- The full distribution (plan.TestPlan): a mapping from worker-index-as-string
to Task, embedded as an association list.  An empty mapping is the reserved
sentinel "error plan". -/
structure TestPlan where
  tasks : List (String × Task)
deriving DecidableEq

/-- Go map indexing `testPlan.Tasks[key]`: yields the zero-value Task when the
key is absent. -/
def lookupTask (tp : TestPlan) (key : String) : Task :=
  match tp.tasks.find? (fun kv => kv.1 = key) with
  | some kv => kv.2
  | none => ⟨[]⟩

/-! ### FallbackPlanner -/

/-- The tests assigned to bucket `i` by the round-robin fallback partition:
the files whose discovery index is congruent to `i` mod `parallelism`,
kept in discovery order. -/
def fallbackTests (files : List String) (parallelism i : Nat) : List TestCase :=
  (files.enum.filter (fun p => p.1 % parallelism = i)).map (fun p => TestCase.mk p.2)

/-- Modelled from the spec: `plan.CreateFallbackPlan` is not under src (only its
callers are).  Per the spec it partitions the files, preserving discovery
order, into `parallelism` buckets round-robin, bucket `i` becoming the Task
for worker-index string `i`. -/
def CreateFallbackPlan (files : List String) (parallelism : Nat) : TestPlan :=
  ⟨(List.range parallelism).map
    (fun i => (toString i, Task.mk (fallbackTests files parallelism i)))⟩

/-! ### Plan acquisition: per-attempt outcomes and the bounded retrier
(src/internal/api/fetch_plan.go together with the roko retrier semantics) -/

/-- What the environment does to one network attempt of a plan fetch/create. -/
inductive AttemptOutcome
  | ok (p : TestPlan)
  | status4xx (code : Nat)
  | status5xx (code : Nat)
  | connectionFailure
  | parseFailure
  | deadlineExceeded
deriving DecidableEq

/-- The error of one attempt, as classified by tryFetchTestPlan. -/
inductive AttemptError
  | invalidRequest (code : Nat)
  | serverError (code : Nat)
  | connection
  | parse
  | deadline
deriving DecidableEq

/-- tryFetchTestPlan (src/internal/api/fetch_plan.go): a 200 parses to a plan,
a 4xx status is the invalid-request error, a 5xx status a server error, and a
failed connection or an unparsable body are their own errors. -/
def tryFetchTestPlan : AttemptOutcome → Except AttemptError TestPlan
  | .ok p => .ok p
  | .status4xx c => .error (.invalidRequest c)
  | .status5xx c => .error (.serverError c)
  | .connectionFailure => .error .connection
  | .parseFailure => .error .parse
  | .deadlineExceeded => .error .deadline

/-- FetchTestPlan calls r.Break() exactly on the invalid-request error. -/
def retryBreak : AttemptError → Bool
  | .invalidRequest _ => true
  | _ => false

/-- Result of running the roko retrier: how many network attempts were
performed, roko's marked attempt count (a successful attempt is not marked),
and the final result. -/
structure RetrierResult where
  attemptsMade : Nat
  attemptCount : Nat
  result : Except AttemptError TestPlan

/-- The roko retry loop as used by FetchTestPlan: run an attempt; on success
stop; on error mark the attempt and stop when Break was requested, the outer
context deadline elapsed, or the attempt ceiling is reached; otherwise back
off and retry.  `outcome k` is the environment's answer to attempt `k`. -/
def retrierGo (outcome : Nat → AttemptOutcome) (maxAttempts : Nat) (count : Nat) :
    RetrierResult :=
  match tryFetchTestPlan (outcome count) with
  | .ok p => ⟨count + 1, count, .ok p⟩
  | .error e =>
    if h : retryBreak e = true ∨ e = .deadline ∨ maxAttempts ≤ count + 1 then
      ⟨count + 1, count + 1, .error e⟩
    else retrierGo outcome maxAttempts (count + 1)
termination_by maxAttempts - count
decreasing_by
  rw [not_or, not_or] at h
  omega

/-- Run the retrier from attempt 0. -/
def retrierRun (maxAttempts : Nat) (outcome : Nat → AttemptOutcome) : RetrierResult :=
  retrierGo outcome maxAttempts 0

/-- An attempt outcome is retryable when it errors but neither aborts the
retrier (4xx) nor ends the phase (deadline): 5xx, connection failure, parse
failure. -/
def isRetryableOutcome (o : AttemptOutcome) : Bool :=
  match tryFetchTestPlan o with
  | .ok _ => false
  | .error e => !retryBreak e && !decide (e = AttemptError.deadline)

/-- The error vocabulary of the whole fetch/create phase. -/
inductive FetchError
  | retryTimeout
  | invalidRequest (code : Nat)
  | transient (e : AttemptError)
deriving DecidableEq

/-- Lift an attempt error that is returned without the retry-limit wrap. -/
def liftAttemptError : AttemptError → FetchError
  | .invalidRequest c => .invalidRequest c
  | e => .transient e

/-- FetchTestPlan (src/internal/api/fetch_plan.go): retry with the fixed
attempt ceiling 5; when the marked attempt count reached the ceiling the
error is wrapped as the retry-limit error (ErrRetryLimitExceeded). -/
def FetchTestPlan (outcome : Nat → AttemptOutcome) :
    RetrierResult × Except FetchError TestPlan :=
  let r := retrierRun 5 outcome
  match r.result with
  | .ok p => (r, .ok p)
  | .error e =>
    if r.attemptCount = 5 then (r, .error .retryTimeout)
    else (r, .error (liftAttemptError e))

/-- Modelled from the spec: the `api.Client` fetch/create methods referenced by
fetchOrCreateTestPlan (which tests `api.ErrRetryTimeout`) are not under src;
src holds only the earlier standalone FetchTestPlan.  Per the spec, exhausted
attempts and an elapsed outer phase deadline are both classified as the
retry-timeout condition; the retrier itself is the one of
src/internal/api/fetch_plan.go. -/
def clientFetchPlan (outcome : Nat → AttemptOutcome) :
    RetrierResult × Except FetchError TestPlan :=
  let r := retrierRun 5 outcome
  match r.result with
  | .ok p => (r, .ok p)
  | .error e =>
    if e = .deadline ∨ r.attemptCount = 5 then (r, .error .retryTimeout)
    else (r, .error (liftAttemptError e))

/-! ### fetchOrCreateTestPlan (src/unnamed/part_000) -/

/-- The handleError closure of fetchOrCreateTestPlan: a retry-timeout error is
resolved into a fallback plan, any other error is propagated. -/
def handleFetchError (files : List String) (parallelism : Nat) (e : FetchError) :
    Except FetchError TestPlan :=
  if e = .retryTimeout then .ok (CreateFallbackPlan files parallelism)
  else .error e

/-- fetchOrCreateTestPlan (src/unnamed/part_000): fetch the cached plan; a hit
with a non-empty task mapping is returned as-is, a hit with the empty sentinel
mapping becomes a fallback plan, a miss triggers request-parameter
construction and plan creation, an empty created plan again becomes a
fallback plan, and every error goes through handleFetchError. -/
def fetchOrCreateTestPlan (fetchResult : Except FetchError (Option TestPlan))
    (paramsResult : Except FetchError Unit) (createResult : Except FetchError TestPlan)
    (files : List String) (parallelism : Nat) : Except FetchError TestPlan :=
  match fetchResult with
  | .error e => handleFetchError files parallelism e
  | .ok (some cached) =>
    if cached.tasks.length = 0 then .ok (CreateFallbackPlan files parallelism)
    else .ok cached
  | .ok none =>
    match paramsResult with
    | .error e => handleFetchError files parallelism e
    | .ok _ =>
      match createResult with
      | .error e => handleFetchError files parallelism e
      | .ok tp =>
        if tp.tasks.length = 0 then .ok (CreateFallbackPlan files parallelism)
        else .ok tp

/-! ### Shell-quoting tokenizer (the go-shellquote Split used by the runner) -/

inductive SplitError
  | unterminatedSingle
  | unterminatedDouble
  | unterminatedEscape
deriving DecidableEq

/-- The characters that separate words. -/
def isSplitChar (c : Char) : Bool :=
  c = ' ' || c = '\t' || c = '\n'

/-- The characters a backslash may escape inside double quotes. -/
def doubleEscapeChars : List Char := ['$', '\x60', '"', '\n', '\\']

/-- Tokenizer state: between words, or inside a word in unquoted,
single-quoted or double-quoted mode, with the accumulated word reversed. -/
inductive TokState
  | between
  | raw (acc : List Char)
  | insingle (acc : List Char)
  | indouble (acc : List Char)

/-- Turn a reversed accumulator into the finished word. -/
def flushWord (acc : List Char) : String := String.mk acc.reverse

/-- The go-shellquote Split loop: split on whitespace; single quotes take
everything up to the closing quote literally; double quotes end at the
closing quote, with a backslash escaping only the double-escape characters
(an escaped newline is elided) and staying literal otherwise; an unquoted
backslash escapes the next character (an escaped newline is elided); an
unterminated quote or trailing backslash is an error. -/
def splitLoop : TokState → List Char → Except SplitError (List String)
  | .between, [] => .ok []
  | .raw acc, [] => .ok [flushWord acc]
  | .insingle _, [] => .error .unterminatedSingle
  | .indouble _, [] => .error .unterminatedDouble
  | .between, c :: rest =>
    if isSplitChar c then splitLoop .between rest
    else if c = '\'' then splitLoop (.insingle []) rest
    else if c = '"' then splitLoop (.indouble []) rest
    else if c = '\\' then
      match rest with
      | [] => .error .unterminatedEscape
      | c2 :: rest2 =>
        if c2 = '\n' then splitLoop .between rest2
        else splitLoop (.raw [c2]) rest2
    else splitLoop (.raw [c]) rest
  | .raw acc, c :: rest =>
    if isSplitChar c then (splitLoop .between rest).map (fun ws => flushWord acc :: ws)
    else if c = '\'' then splitLoop (.insingle acc) rest
    else if c = '"' then splitLoop (.indouble acc) rest
    else if c = '\\' then
      match rest with
      | [] => .error .unterminatedEscape
      | c2 :: rest2 =>
        if c2 = '\n' then splitLoop (.raw acc) rest2
        else splitLoop (.raw (c2 :: acc)) rest2
    else splitLoop (.raw (c :: acc)) rest
  | .insingle acc, c :: rest =>
    if c = '\'' then splitLoop (.raw acc) rest
    else splitLoop (.insingle (c :: acc)) rest
  | .indouble acc, c :: rest =>
    if c = '"' then splitLoop (.raw acc) rest
    else if c = '\\' then
      match rest with
      | [] => .error .unterminatedDouble
      | c2 :: rest2 =>
        if doubleEscapeChars.contains c2 then
          if c2 = '\n' then splitLoop (.indouble acc) rest2
          else splitLoop (.indouble (c2 :: acc)) rest2
        else splitLoop (.indouble (c2 :: c :: acc)) rest2
    else splitLoop (.indouble (c :: acc)) rest

/-- Tokenize a rendered command string under shell-quoting rules. -/
def shellSplit (s : String) : Except SplitError (List String) :=
  splitLoop .between s.data

/-! ### Runner command builder (modelled; only its tests are under src) -/

/-- RunnerConfig: per-framework template configuration. -/
structure RunnerConfig where
  testCommand : String := ""
  testFilePattern : String := ""
  testFileExcludePattern : String := ""
  retryTestCommand : String := ""
  resultPath : String := ""
deriving DecidableEq

def testExamplesPlaceholder : String := "\x7b\x7btestExamples\x7d\x7d"

def outputFilePlaceholder : String := "\x7b\x7boutputFile\x7d\x7d"

def testNamePatternPlaceholder : String := "\x7b\x7btestNamePattern\x7d\x7d"

/-- Modelled from the spec: the runner's commandNameAndArgs implementation is
not under src (src/unnamed/part_002 holds only its tests).  Per the spec the
template is tokenized under shell-quoting rules, the testExamples placeholder
is substituted positionally by the test identifiers when present and the
identifiers are appended as trailing tokens when absent, and the outputFile
placeholder is replaced by the configured result-file path; the first token
is the command name, the rest its arguments. -/
def commandNameAndArgs (cfg : RunnerConfig) (cmd : String) (testCases : List String) :
    Except SplitError (String × List String) :=
  match shellSplit cmd with
  | .error e => .error e
  | .ok ws =>
    let ws := if ws.contains testExamplesPlaceholder then
        ws.flatMap (fun w => if w = testExamplesPlaceholder then testCases else [w])
      else ws ++ testCases
    let ws := ws.map (fun w => if w = outputFilePlaceholder then cfg.resultPath else w)
    match ws with
    | [] => .ok ("", [])
    | n :: args => .ok (n, args)

/-- Command construction errors: a retry template without the name-pattern
placeholder, or a tokenization failure. -/
inductive CommandError
  | missingPlaceholder (msg : String)
  | splitFailed (e : SplitError)
deriving DecidableEq

/-- Modelled from the spec: the runner's retryCommandNameAndArgs is not under
src (only its tests are).  A retry template whose tokens do not contain the
testNamePattern placeholder is rejected with a descriptive error before any
command is built; otherwise the placeholder is replaced by the failed test
identifiers joined verbatim with a pipe and wrapped in parentheses, and the
outputFile placeholder by the result path. -/
def retryCommandNameAndArgs (cfg : RunnerConfig) (cmd : String) (failed : List String) :
    Except CommandError (String × List String) :=
  match shellSplit cmd with
  | .error e => .error (CommandError.splitFailed e)
  | .ok ws =>
    if ws.contains testNamePatternPlaceholder then
      let pat := "(" ++ String.intercalate "|" failed ++ ")"
      let ws := ws.map (fun w => if w = testNamePatternPlaceholder then pat else w)
      let ws := ws.map (fun w => if w = outputFilePlaceholder then cfg.resultPath else w)
      match ws with
      | [] => .ok ("", [])
      | n :: args => .ok (n, args)
    else
      .error (.missingPlaceholder
        "couldn't find '\x7b\x7btestNamePattern\x7d\x7d' sentinel in retry command")

/-! ### Execution supervisor (src/unnamed/part_000: main wait logic and
retryFailedTests), modelled over the per-run exit codes -/

/-- The timeline markers main records around the primary run. -/
def baseTimeline : List String := ["test_start", "test_end"]

/-- The retry loop of retryFailedTests, with the remaining loop iterations
made explicit (`left` equals maxRetries minus the retries already made, so
the loop guard `retries < maxRetries` is exactly `left > 0`).  Each pass
increments the attempt counter, records the retry start and end markers,
and exits with 0 on a passing attempt or with the attempt's exit code once
the counter has reached the bound. -/
def retryLoopFrom (maxRetries : Nat) (retryExit : Nat → Nat) :
    Nat → Nat → List String → Nat × List String
  | 0, _, tl => (1, tl)
  | left + 1, retries, tl =>
    let r := retries + 1
    let tl2 := tl ++ ["retry_" ++ toString r ++ "_start", "retry_" ++ toString r ++ "_end"]
    if retryExit r ≠ 0 then
      if maxRetries ≤ r then (retryExit r, tl2)
      else retryLoopFrom maxRetries retryExit left r tl2
    else (0, tl2)

/-- retryFailedTests (src/unnamed/part_000): run the retry loop starting from
zero retries, extending the given timeline; `retryExit k` is the exit code of
retry attempt `k` (1-based). -/
def retryFailedTests (maxRetries : Nat) (retryExit : Nat → Nat) (tl : List String) :
    Nat × List String :=
  retryLoopFrom maxRetries retryExit maxRetries 0 tl

/-- The post-wait supervision of main (src/unnamed/part_000): exit 0 ends the
run with code 0; a non-zero exit with retries disabled propagates the primary
exit code; otherwise the retry loop decides—its code 0 means overall success,
any other code is propagated.  Returns the final exit code and timeline. -/
def superviseMain (primaryExit : Nat) (maxRetries : Nat) (retryExit : Nat → Nat) :
    Nat × List String :=
  if primaryExit ≠ 0 then
    if maxRetries = 0 then (primaryExit, baseTimeline)
    else
      let rt := retryFailedTests maxRetries retryExit baseTimeline
      if rt.1 ≠ 0 then rt else (0, rt.2)
  else (0, baseTimeline)

/-! ### The observable trace of main (src/unnamed/part_000) -/

/-- The externally visible effects of one run of main. -/
inductive MainEffect
  | printVersion
  | getFiles
  | networkCall
  | spawnProcess (tests : List String)
deriving DecidableEq

/-- The environment of one run of main: configuration validity, the version
flag, and the results the collaborators would give. -/
structure MainInput where
  configValid : Bool
  versionFlag : Bool
  getFilesResult : Except String (List String)
  fetchResult : Except FetchError (Option TestPlan)
  paramsResult : Except FetchError Unit
  createResult : Except FetchError TestPlan
  parallelism : Nat
  nodeIndex : Nat
  commandOk : Bool
  startOk : Bool
  primaryExit : Nat
  maxRetries : Nat
  retryExit : Nat → Nat

/-- The effect trace and exit code of main (src/unnamed/part_000): config
errors exit 16; the version flag prints the version and exits 0 before any
work; then files are gathered, the plan fetched or created, this node's task
selected by string node index (a missing key yields the zero-value Task),
and the test command built, spawned and supervised; a final metadata report
is sent. -/
def mainTrace (inp : MainInput) : List MainEffect × Nat :=
  if inp.configValid = false then ([], 16)
  else if inp.versionFlag then ([MainEffect.printVersion], 0)
  else
    match inp.getFilesResult with
    | .error _ => ([MainEffect.getFiles], 16)
    | .ok files =>
      match fetchOrCreateTestPlan inp.fetchResult inp.paramsResult inp.createResult files
          inp.parallelism with
      | .error _ => ([MainEffect.getFiles, MainEffect.networkCall], 16)
      | .ok tp =>
        let task := lookupTask tp (toString inp.nodeIndex)
        let runnable := task.tests.map TestCase.path
        if inp.commandOk = false then ([MainEffect.getFiles, MainEffect.networkCall], 16)
        else if inp.startOk = false then ([MainEffect.getFiles, MainEffect.networkCall], 16)
        else
          let res := superviseMain inp.primaryExit inp.maxRetries inp.retryExit
          ([MainEffect.getFiles, MainEffect.networkCall, MainEffect.spawnProcess runnable,
            MainEffect.networkCall], res.1)

/-! ### Helper lemmas: fallback planner -/

lemma createFallbackPlan_tasks_length (files : List String) (N : Nat) :
    (CreateFallbackPlan files N).tasks.length = N := by
  simp [CreateFallbackPlan]

lemma createFallbackPlan_mem (files : List String) (N : Nat) (kv : String × Task)
    (h : kv ∈ (CreateFallbackPlan files N).tasks) :
    ∃ i, i < N ∧ kv = (toString i, Task.mk (fallbackTests files N i)) := by
  simp only [CreateFallbackPlan, List.mem_map, List.mem_range] at h
  obtain ⟨i, hi, hkv⟩ := h
  exact ⟨i, hi, hkv.symm⟩

lemma fallbackTests_length (files : List String) (N i : Nat) :
    (fallbackTests files N i).length =
      (List.range files.length).countP (fun j => decide (j % N = i)) := by
  unfold fallbackTests
  rw [List.length_map, ← List.countP_eq_length_filter, ← List.enum_map_fst files,
    List.countP_map]
  rfl

lemma countP_range_mod (N : Nat) (hN : 0 < N) (i : Nat) (hi : i < N) (K : Nat) :
    (List.range K).countP (fun j => decide (j % N = i)) =
      K / N + if i < K % N then 1 else 0 := by
  induction K with
  | zero => simp
  | succ K ih =>
    rw [List.range_succ, List.countP_append, ih]
    have hsingle : List.countP (fun j => decide (j % N = i)) [K] =
        if K % N = i then 1 else 0 := by
      simp [List.countP_cons]
    rw [hsingle]
    have hdm := Nat.div_add_mod K N
    have hmlt : K % N < N := Nat.mod_lt _ hN
    rcases Nat.lt_or_ge (K % N + 1) N with hlt | hge
    · have h1 : (K + 1) % N = K % N + 1 := by
        conv_lhs => rw [← hdm, Nat.add_assoc]
        rw [Nat.mul_add_mod]
        exact Nat.mod_eq_of_lt hlt
      have h2 : (K + 1) / N = K / N := by
        conv_lhs => rw [← hdm, Nat.add_assoc]
        rw [Nat.mul_add_div hN, Nat.div_eq_of_lt hlt, Nat.add_zero]
      rw [h1, h2]
      split_ifs <;> omega
    · have heq : K % N + 1 = N := by omega
      have hK1 : K + 1 = N * (K / N + 1) := by
        rw [Nat.mul_add, Nat.mul_one]
        conv_lhs => rw [← hdm, Nat.add_assoc, heq]
      have h1 : (K + 1) % N = 0 := by rw [hK1]; exact Nat.mul_mod_right _ _
      have h2 : (K + 1) / N = K / N + 1 := by
        rw [hK1]; exact Nat.mul_div_cancel_left _ hN
      rw [h1, h2]
      split_ifs <;> omega

lemma fallbackTests_length_closed (files : List String) (N : Nat) (hN : 0 < N)
    (i : Nat) (hi : i < N) :
    (fallbackTests files N i).length =
      files.length / N + if i < files.length % N then 1 else 0 := by
  rw [fallbackTests_length, countP_range_mod N hN i hi]

lemma sum_range_indicator (n m c : Nat) :
    (((List.range n).map (fun i => if m = i then c else 0)).sum) =
      if m < n then c else 0 := by
  induction n with
  | zero => simp
  | succ n ih =>
    rw [List.range_succ, List.map_append, List.sum_append, ih]
    simp only [List.map_cons, List.map_nil, List.sum_cons, List.sum_nil]
    split_ifs <;> omega

lemma countP_filter_mod (l : List (Nat × String)) (a : Nat × String) (N i : Nat) :
    List.countP (fun x => decide (x = a)) (l.filter (fun p => decide (p.1 % N = i))) =
      if a.1 % N = i then List.countP (fun x => decide (x = a)) l else 0 := by
  rw [List.countP_filter]
  by_cases h : a.1 % N = i
  · rw [if_pos h]
    apply List.countP_congr
    intro x _
    constructor
    · intro hx
      exact ((Bool.and_eq_true _ _).mp hx).1
    · intro hx
      have hxa : x = a := of_decide_eq_true hx
      subst hxa
      simp [h]
  · rw [if_neg h]
    apply List.countP_eq_zero.mpr
    intro x _ hx
    rcases (Bool.and_eq_true _ _).mp hx with ⟨hx1, hx2⟩
    have hxa : x = a := of_decide_eq_true hx1
    subst hxa
    exact h (of_decide_eq_true hx2)

lemma fallback_filters_flatten_perm (files : List String) (N : Nat) (hN : 0 < N) :
    (((List.range N).map
        (fun i => files.enum.filter (fun p => decide (p.1 % N = i)))).flatten).Perm
      files.enum := by
  rw [List.perm_iff_count]
  intro a
  show List.countP (fun x => decide (x = a)) _ = List.countP (fun x => decide (x = a)) _
  rw [List.countP_flatten, List.map_map]
  have hmap : ((List.range N).map ((List.countP (fun x => decide (x = a))) ∘
      (fun i => files.enum.filter (fun p => decide (p.1 % N = i))))) =
      (List.range N).map
        (fun i => if a.1 % N = i then
          List.countP (fun x => decide (x = a)) files.enum else 0) := by
    apply List.map_congr_left
    intro i _
    exact countP_filter_mod files.enum a N i
  rw [hmap, sum_range_indicator, if_pos (Nat.mod_lt _ hN)]

lemma createFallbackPlan_cover (files : List String) (N : Nat) (hN : 0 < N) :
    ((((CreateFallbackPlan files N).tasks.map (fun kv => kv.2.tests))).flatten).Perm
      (files.map TestCase.mk) := by
  have htasks : (CreateFallbackPlan files N).tasks.map (fun kv => kv.2.tests) =
      (List.range N).map
        (fun i => (files.enum.filter (fun p => decide (p.1 % N = i))).map
          (fun p => TestCase.mk p.2)) := by
    simp only [CreateFallbackPlan, List.map_map]
    rfl
  rw [htasks]
  have hmaps : (List.range N).map
      (fun i => (files.enum.filter (fun p => decide (p.1 % N = i))).map
        (fun p => TestCase.mk p.2)) =
      ((List.range N).map
        (fun i => files.enum.filter (fun p => decide (p.1 % N = i)))).map
        (List.map (fun p => TestCase.mk p.2)) := by
    rw [List.map_map]
    rfl
  rw [hmaps, ← List.map_flatten]
  have hperm := (fallback_filters_flatten_perm files N hN).map
    (fun p : Nat × String => TestCase.mk p.2)
  apply hperm.trans
  have : files.enum.map (fun p : Nat × String => TestCase.mk p.2) =
      (files.enum.map Prod.snd).map TestCase.mk := by
    rw [List.map_map]
    rfl
  rw [this, List.enum_map_snd]

lemma fallbackTests_order (files : List String) (N i : Nat) :
    ((fallbackTests files N i).map TestCase.path).Sublist files := by
  unfold fallbackTests
  rw [List.map_map]
  have hcomp : (TestCase.path ∘ fun p : Nat × String => TestCase.mk p.2) =
      (Prod.snd : Nat × String → String) := rfl
  rw [hcomp]
  have hsub := (List.filter_sublist
    (p := fun p : Nat × String => decide (p.1 % N = i)) files.enum).map Prod.snd
  rwa [List.enum_map_snd] at hsub

/-! ### Helper lemmas: retrier -/

lemma retrierGo_break (outcome : Nat → AttemptOutcome) (max count c : Nat)
    (hoc : outcome count = .status4xx c) :
    retrierGo outcome max count = ⟨count + 1, count + 1, .error (.invalidRequest c)⟩ := by
  rw [retrierGo, hoc]
  simp [tryFetchTestPlan, retryBreak]

lemma retrierGo_deadline_now (outcome : Nat → AttemptOutcome) (max count : Nat)
    (hoc : outcome count = .deadlineExceeded) :
    retrierGo outcome max count = ⟨count + 1, count + 1, .error .deadline⟩ := by
  rw [retrierGo, hoc]
  simp [tryFetchTestPlan]

lemma retrierGo_skip (outcome : Nat → AttemptOutcome) (max count : Nat)
    (hretry : isRetryableOutcome (outcome count) = true) (hlt : count + 1 < max) :
    retrierGo outcome max count = retrierGo outcome max (count + 1) := by
  unfold isRetryableOutcome at hretry
  rw [retrierGo]
  cases htf : tryFetchTestPlan (outcome count) with
  | ok p => rw [htf] at hretry; simp at hretry
  | error e =>
    rw [htf] at hretry
    simp only [Bool.and_eq_true, Bool.not_eq_true'] at hretry
    have hcond : ¬(retryBreak e = true ∨ e = AttemptError.deadline ∨ max ≤ count + 1) := by
      rw [not_or, not_or]
      refine ⟨by simp [hretry.1], ?_, by omega⟩
      intro hde
      rw [hde] at hretry
      simp at hretry
    simp only [hcond, dif_neg, not_false_iff]

lemma retrierGo_skip_upto (outcome : Nat → AttemptOutcome) (max : Nat) :
    ∀ (j count : Nat), count + j < max →
    (∀ k, k < j → isRetryableOutcome (outcome (count + k)) = true) →
    retrierGo outcome max count = retrierGo outcome max (count + j) := by
  intro j
  induction j with
  | zero => intro count _ _; rfl
  | succ j ih =>
    intro count hlt hall
    have h0 : isRetryableOutcome (outcome count) = true := by
      have := hall 0 (by omega)
      simpa using this
    rw [retrierGo_skip outcome max count h0 (by omega)]
    have := ih (count + 1) (by omega) (fun k hk => by
      have := hall (k + 1) (by omega)
      rwa [show count + (k + 1) = count + 1 + k by omega] at this)
    rwa [show count + 1 + j = count + (j + 1) by omega] at this

lemma retrierGo_sustained5xx (outcome : Nat → AttemptOutcome) (c max : Nat) :
    ∀ (fuel count : Nat), count + fuel = max → 0 < fuel →
    (∀ k, count ≤ k → k < max → outcome k = .status5xx c) →
    retrierGo outcome max count = ⟨max, max, .error (.serverError c)⟩ := by
  intro fuel
  induction fuel with
  | zero => intro count _ h0; omega
  | succ fuel ih =>
    intro count hsum _ h5
    have hoc : outcome count = .status5xx c := h5 count le_rfl (by omega)
    rw [retrierGo, hoc]
    simp only [tryFetchTestPlan]
    by_cases hlast : max ≤ count + 1
    · have hcm : count + 1 = max := by omega
      rw [dif_pos (Or.inr (Or.inr hlast)), hcm]
    · have hcond : ¬(retryBreak (AttemptError.serverError c) = true ∨
          AttemptError.serverError c = AttemptError.deadline ∨ max ≤ count + 1) := by
        rw [not_or, not_or]
        exact ⟨by simp [retryBreak], by simp, hlast⟩
      rw [dif_neg hcond]
      exact ih (count + 1) (by omega) (by omega)
        (fun k hk1 hk2 => h5 k (by omega) hk2)

lemma retrierGo_made_lb (outcome : Nat → AttemptOutcome) (max : Nat) :
    ∀ (fuel count : Nat), max ≤ count + fuel →
    count + 1 ≤ (retrierGo outcome max count).attemptsMade := by
  intro fuel
  induction fuel with
  | zero =>
    intro count hle
    rw [retrierGo]
    cases htf : tryFetchTestPlan (outcome count) with
    | ok p => simp
    | error e =>
      dsimp only
      rw [dif_pos (Or.inr (Or.inr (by omega)))]
  | succ fuel ih =>
    intro count hle
    rw [retrierGo]
    cases htf : tryFetchTestPlan (outcome count) with
    | ok p => simp
    | error e =>
      dsimp only
      by_cases hcond : retryBreak e = true ∨ e = AttemptError.deadline ∨ max ≤ count + 1
      · rw [dif_pos hcond]
      · rw [dif_neg hcond]
        have := ih (count + 1) (by omega)
        omega

/-! ### Helper lemmas: supervisor -/

lemma retryLoopFrom_exhaust (maxRetries : Nat) (re : Nat → Nat) :
    ∀ (left retries : Nat) (tl : List String), retries + left = maxRetries → 0 < left →
    (∀ k, retries < k → k ≤ maxRetries → re k ≠ 0) →
    (retryLoopFrom maxRetries re left retries tl).1 = re maxRetries := by
  intro left
  induction left with
  | zero => intro retries tl _ h0; omega
  | succ left ih =>
    intro retries tl hsum _ hall
    simp only [retryLoopFrom]
    have hne : re (retries + 1) ≠ 0 := hall _ (by omega) (by omega)
    rw [if_pos hne]
    by_cases hle : maxRetries ≤ retries + 1
    · rw [if_pos hle]
      have heq : retries + 1 = maxRetries := by omega
      rw [heq]
    · rw [if_neg hle]
      exact ih (retries + 1) _ (by omega) (by omega)
        (fun k hk1 hk2 => hall k (by omega) hk2)

/-! ## Claim theorems -/

/-- C1: every non-error return of fetchOrCreateTestPlan is a plan with a
non-empty task mapping (parallelism being at least 1); an empty cached plan,
an empty created plan, and a retry-timeout acquisition failure are each
internally substituted by the fallback plan, so the caller never observes the
sentinel empty plan. -/
theorem fetchOrCreate_never_sentinel
    (fr : Except FetchError (Option TestPlan)) (pr : Except FetchError Unit)
    (cr : Except FetchError TestPlan) (files : List String) (parallelism : Nat)
    (tp tpe tpc : TestPlan) (hpar : 1 ≤ parallelism)
    (hok : fetchOrCreateTestPlan fr pr cr files parallelism = .ok tp)
    (he : tpe.tasks = []) (hc : tpc.tasks = []) :
    tp.tasks ≠ [] ∧
    fetchOrCreateTestPlan (.ok (some tpe)) pr cr files parallelism
      = .ok (CreateFallbackPlan files parallelism) ∧
    fetchOrCreateTestPlan (.ok none) (.ok ()) (.ok tpc) files parallelism
      = .ok (CreateFallbackPlan files parallelism) ∧
    fetchOrCreateTestPlan (.error .retryTimeout) pr cr files parallelism
      = .ok (CreateFallbackPlan files parallelism) := by
  have hfb : (CreateFallbackPlan files parallelism).tasks ≠ [] := by
    intro hnil
    have hlen := createFallbackPlan_tasks_length files parallelism
    rw [hnil] at hlen
    simp at hlen
    omega
  have hhandle : ∀ e : FetchError,
      handleFetchError files parallelism e = .ok tp → tp.tasks ≠ [] := by
    intro e hh
    unfold handleFetchError at hh
    split at hh
    · cases hh
      exact hfb
    · cases hh
  refine ⟨?_, ?_, ?_, ?_⟩
  · rcases fr with e | o
    · simp only [fetchOrCreateTestPlan] at hok
      exact hhandle e hok
    · rcases o with _ | cached
      · rcases pr with e | u
        · simp only [fetchOrCreateTestPlan] at hok
          exact hhandle e hok
        · rcases cr with e | created
          · simp only [fetchOrCreateTestPlan] at hok
            exact hhandle e hok
          · simp only [fetchOrCreateTestPlan] at hok
            by_cases hlen : created.tasks.length = 0
            · rw [if_pos hlen] at hok
              cases hok
              exact hfb
            · rw [if_neg hlen] at hok
              cases hok
              intro hnil
              rw [hnil] at hlen
              simp at hlen
      · simp only [fetchOrCreateTestPlan] at hok
        by_cases hlen : cached.tasks.length = 0
        · rw [if_pos hlen] at hok
          cases hok
          exact hfb
        · rw [if_neg hlen] at hok
          cases hok
          intro hnil
          rw [hnil] at hlen
          simp at hlen
  · simp [fetchOrCreateTestPlan, he]
  · simp [fetchOrCreateTestPlan, hc]
  · simp [fetchOrCreateTestPlan, handleFetchError]

/-- Witness for C1 at a concrete input: a non-empty cached plan is returned
as-is and is non-empty; the substitution conclusions hold at the same
inputs. -/
theorem fetchOrCreate_never_sentinel_witness :
    (TestPlan.mk [("0", Task.mk [TestCase.mk "a"])]).tasks ≠ [] ∧
    fetchOrCreateTestPlan (.ok (some (TestPlan.mk []))) (.ok ()) (.ok (TestPlan.mk []))
        ["a"] 1 = .ok (CreateFallbackPlan ["a"] 1) ∧
    fetchOrCreateTestPlan (.ok none) (.ok ()) (.ok (TestPlan.mk [])) ["a"] 1
      = .ok (CreateFallbackPlan ["a"] 1) ∧
    fetchOrCreateTestPlan (.error .retryTimeout) (.ok ()) (.ok (TestPlan.mk [])) ["a"] 1
      = .ok (CreateFallbackPlan ["a"] 1) :=
  fetchOrCreate_never_sentinel
    (.ok (some (TestPlan.mk [("0", Task.mk [TestCase.mk "a"])]))) (.ok ())
    (.ok (TestPlan.mk [])) ["a"] 1
    (TestPlan.mk [("0", Task.mk [TestCase.mk "a"])]) (TestPlan.mk []) (TestPlan.mk [])
    (by decide) rfl rfl rfl

/-- C2: for parallelism N at least 1, CreateFallbackPlan has exactly N buckets,
its buckets together contain exactly the discovered files (no file dropped or
duplicated, counting multiplicity), every bucket preserves discovery order,
any two bucket sizes differ by at most one, and the function is pure and
deterministic. -/
theorem createFallbackPlan_balanced (files : List String) (N : Nat) (hN : 1 ≤ N)
    (kv kv1 kv2 : String × Task)
    (hkv : kv ∈ (CreateFallbackPlan files N).tasks)
    (h1 : kv1 ∈ (CreateFallbackPlan files N).tasks)
    (h2 : kv2 ∈ (CreateFallbackPlan files N).tasks) :
    (CreateFallbackPlan files N).tasks.length = N ∧
    (((CreateFallbackPlan files N).tasks.map (fun x => x.2.tests)).flatten).Perm
      (files.map TestCase.mk) ∧
    (kv.2.tests.map TestCase.path).Sublist files ∧
    kv1.2.tests.length ≤ kv2.2.tests.length + 1 ∧
    CreateFallbackPlan files N = CreateFallbackPlan files N := by
  have hN0 : 0 < N := hN
  refine ⟨createFallbackPlan_tasks_length files N,
    createFallbackPlan_cover files N hN0, ?_, ?_, rfl⟩
  · obtain ⟨i, hi, hkvi⟩ := createFallbackPlan_mem files N kv hkv
    rw [hkvi]
    exact fallbackTests_order files N i
  · obtain ⟨i, hi, hkv1⟩ := createFallbackPlan_mem files N kv1 h1
    obtain ⟨j, hj, hkv2⟩ := createFallbackPlan_mem files N kv2 h2
    rw [hkv1, hkv2]
    have hli := fallbackTests_length_closed files N hN0 i hi
    have hlj := fallbackTests_length_closed files N hN0 j hj
    simp only [hli, hlj]
    split_ifs <;> omega

/-- Witness for C2 at files a, b, c and parallelism 2: bucket 0 holds a and c,
bucket 1 holds b. -/
theorem createFallbackPlan_balanced_witness :
    (CreateFallbackPlan ["a", "b", "c"] 2).tasks.length = 2 ∧
    (((CreateFallbackPlan ["a", "b", "c"] 2).tasks.map (fun x => x.2.tests)).flatten).Perm
      (["a", "b", "c"].map TestCase.mk) ∧
    ((("0", Task.mk [TestCase.mk "a", TestCase.mk "c"]) : String × Task).2.tests.map
      TestCase.path).Sublist ["a", "b", "c"] ∧
    (("0", Task.mk [TestCase.mk "a", TestCase.mk "c"]) : String × Task).2.tests.length ≤
      (("1", Task.mk [TestCase.mk "b"]) : String × Task).2.tests.length + 1 ∧
    CreateFallbackPlan ["a", "b", "c"] 2 = CreateFallbackPlan ["a", "b", "c"] 2 :=
  createFallbackPlan_balanced ["a", "b", "c"] 2 (by decide)
    ("0", Task.mk [TestCase.mk "a", TestCase.mk "c"])
    ("0", Task.mk [TestCase.mk "a", TestCase.mk "c"])
    ("1", Task.mk [TestCase.mk "b"])
    (by decide) (by decide) (by decide)

/-- C3: a sustained run of 5xx responses consumes exactly the attempt ceiling
of 5 network attempts and is classified as the retry-timeout condition, and
an elapsed outer deadline (after any number of retryable attempts) is
classified the same way; in both cases plan acquisition resolves the failure
into the fallback plan instead of propagating a hard error. -/
theorem planAcquisition_timeout_fallback
    (files : List String) (parallelism : Nat)
    (pr : Except FetchError Unit) (cr : Except FetchError TestPlan)
    (outcome outcome2 : Nat → AttemptOutcome) (c j : Nat)
    (h5 : ∀ k, k < 5 → outcome k = .status5xx c)
    (hj : j < 5)
    (hpre : ∀ k, k < j → isRetryableOutcome (outcome2 k) = true)
    (hdl : outcome2 j = .deadlineExceeded) :
    (clientFetchPlan outcome).1.attemptsMade = 5 ∧
    (clientFetchPlan outcome).2 = .error .retryTimeout ∧
    fetchOrCreateTestPlan ((clientFetchPlan outcome).2.map some) pr cr files parallelism
      = .ok (CreateFallbackPlan files parallelism) ∧
    (clientFetchPlan outcome2).2 = .error .retryTimeout ∧
    fetchOrCreateTestPlan ((clientFetchPlan outcome2).2.map some) pr cr files parallelism
      = .ok (CreateFallbackPlan files parallelism) := by
  have hrun : retrierRun 5 outcome = ⟨5, 5, .error (.serverError c)⟩ :=
    retrierGo_sustained5xx outcome c 5 5 0 (by omega) (by omega)
      (fun k _ hk2 => h5 k hk2)
  have hcf : clientFetchPlan outcome =
      (⟨5, 5, .error (.serverError c)⟩, .error .retryTimeout) := by
    unfold clientFetchPlan
    rw [hrun]
    dsimp only
    rw [if_pos (Or.inr rfl)]
  have hrun2 : retrierRun 5 outcome2 = ⟨j + 1, j + 1, .error .deadline⟩ := by
    unfold retrierRun
    rw [retrierGo_skip_upto outcome2 5 j 0 (by omega)
        (fun k hk => by rw [Nat.zero_add]; exact hpre k hk),
      Nat.zero_add]
    exact retrierGo_deadline_now outcome2 5 j hdl
  have hcf2 : clientFetchPlan outcome2 =
      (⟨j + 1, j + 1, .error .deadline⟩, .error .retryTimeout) := by
    unfold clientFetchPlan
    rw [hrun2]
    dsimp only
    rw [if_pos (Or.inl rfl)]
  refine ⟨by rw [hcf], by rw [hcf], ?_, by rw [hcf2], ?_⟩
  · rw [hcf]
    simp [Except.map, fetchOrCreateTestPlan, handleFetchError]
  · rw [hcf2]
    simp [Except.map, fetchOrCreateTestPlan, handleFetchError]

/-- Witness for C3 at a sustained 503 run and at an immediate deadline. -/
theorem planAcquisition_timeout_fallback_witness :
    (clientFetchPlan (fun _ => .status5xx 503)).1.attemptsMade = 5 ∧
    (clientFetchPlan (fun _ => .status5xx 503)).2 = .error .retryTimeout ∧
    fetchOrCreateTestPlan ((clientFetchPlan (fun _ => .status5xx 503)).2.map some)
        (.ok ()) (.ok (TestPlan.mk [])) ["a"] 1
      = .ok (CreateFallbackPlan ["a"] 1) ∧
    (clientFetchPlan (fun _ => .deadlineExceeded)).2 = .error .retryTimeout ∧
    fetchOrCreateTestPlan ((clientFetchPlan (fun _ => .deadlineExceeded)).2.map some)
        (.ok ()) (.ok (TestPlan.mk [])) ["a"] 1
      = .ok (CreateFallbackPlan ["a"] 1) :=
  planAcquisition_timeout_fallback ["a"] 1 (.ok ()) (.ok (TestPlan.mk []))
    (fun _ => .status5xx 503) (fun _ => .deadlineExceeded) 503 0
    (fun _ _ => rfl) (by decide) (fun k hk => absurd hk (Nat.not_lt_zero k)) rfl

/-- C4: a 4xx response (here: received after any run of fewer than four
retryable failures) aborts the retrier immediately, with exactly that many
network attempts made and the error classified as the non-retryable
invalid-request condition, while a retryable first outcome (5xx, connection
failure, parse failure) leads to a second attempt; 5xx, connection and parse
failures are exactly the retryable outcomes. -/
theorem fetch4xx_single_attempt
    (outcome outcomeR : Nat → AttemptOutcome) (c j : Nat)
    (hj : j + 1 < 5)
    (hpre : ∀ k, k < j → isRetryableOutcome (outcome k) = true)
    (h4 : outcome j = .status4xx c)
    (hretry : isRetryableOutcome (outcomeR 0) = true) :
    (FetchTestPlan outcome).1.attemptsMade = j + 1 ∧
    (FetchTestPlan outcome).2 = .error (.invalidRequest c) ∧
    2 ≤ (FetchTestPlan outcomeR).1.attemptsMade ∧
    isRetryableOutcome (.status5xx c) = true ∧
    isRetryableOutcome .connectionFailure = true ∧
    isRetryableOutcome .parseFailure = true ∧
    isRetryableOutcome (.status4xx c) = false ∧
    isRetryableOutcome .deadlineExceeded = false := by
  have hrun : retrierRun 5 outcome = ⟨j + 1, j + 1, .error (.invalidRequest c)⟩ := by
    unfold retrierRun
    rw [retrierGo_skip_upto outcome 5 j 0 (by omega)
        (fun k hk => by rw [Nat.zero_add]; exact hpre k hk),
      Nat.zero_add]
    exact retrierGo_break outcome 5 j c h4
  have hFT : FetchTestPlan outcome =
      (⟨j + 1, j + 1, .error (.invalidRequest c)⟩, .error (.invalidRequest c)) := by
    unfold FetchTestPlan
    rw [hrun]
    have hne : ¬(j + 1 = 5) := by omega
    dsimp only
    rw [if_neg hne]
    rfl
  have h1R : (FetchTestPlan outcomeR).1 = retrierRun 5 outcomeR := by
    unfold FetchTestPlan
    rcases hres : (retrierRun 5 outcomeR).result with e | p
    · simp only [hres]
      split <;> rfl
    · simp [hres]
  have hlb : 2 ≤ (retrierRun 5 outcomeR).attemptsMade := by
    unfold retrierRun
    rw [retrierGo_skip outcomeR 5 0 hretry (by omega)]
    exact retrierGo_made_lb outcomeR 5 5 1 (by omega)
  refine ⟨by rw [hFT], by rw [hFT], by rw [h1R]; exact hlb, rfl, rfl, rfl, rfl, rfl⟩

/-- Witness for C4: a single 403 response makes exactly one attempt and
aborts with the invalid-request classification; a first connection failure
is retried. -/
theorem fetch4xx_single_attempt_witness :
    (FetchTestPlan (fun _ => .status4xx 403)).1.attemptsMade = 0 + 1 ∧
    (FetchTestPlan (fun _ => .status4xx 403)).2 = .error (.invalidRequest 403) ∧
    2 ≤ (FetchTestPlan (fun _ => .connectionFailure)).1.attemptsMade ∧
    isRetryableOutcome (.status5xx 403) = true ∧
    isRetryableOutcome .connectionFailure = true ∧
    isRetryableOutcome .parseFailure = true ∧
    isRetryableOutcome (.status4xx 403) = false ∧
    isRetryableOutcome .deadlineExceeded = false :=
  fetch4xx_single_attempt (fun _ => .status4xx 403) (fun _ => .connectionFailure) 403 0
    (by decide) (fun k hk => absurd hk (Nat.not_lt_zero k)) rfl rfl

/-- C5: a cached plan with an empty task mapping, and a freshly created plan
with an empty task mapping, each make fetchOrCreateTestPlan return exactly
the result of calling the fallback planner directly on the same files and
parallelism. -/
theorem sentinel_plan_equals_fallback
    (files : List String) (parallelism : Nat) (tp tpc : TestPlan)
    (pr : Except FetchError Unit) (cr : Except FetchError TestPlan)
    (h1 : tp.tasks = []) (h2 : tpc.tasks = []) :
    fetchOrCreateTestPlan (.ok (some tp)) pr cr files parallelism
      = .ok (CreateFallbackPlan files parallelism) ∧
    fetchOrCreateTestPlan (.ok none) (.ok ()) (.ok tpc) files parallelism
      = .ok (CreateFallbackPlan files parallelism) := by
  constructor
  · simp [fetchOrCreateTestPlan, h1]
  · simp [fetchOrCreateTestPlan, h2]

/-- Witness for C5 at the empty sentinel plan, files x and y, parallelism 2. -/
theorem sentinel_plan_equals_fallback_witness :
    fetchOrCreateTestPlan (.ok (some (TestPlan.mk []))) (.ok ()) (.ok (TestPlan.mk []))
        ["x", "y"] 2 = .ok (CreateFallbackPlan ["x", "y"] 2) ∧
    fetchOrCreateTestPlan (.ok none) (.ok ()) (.ok (TestPlan.mk [])) ["x", "y"] 2
      = .ok (CreateFallbackPlan ["x", "y"] 2) :=
  sentinel_plan_equals_fallback ["x", "y"] 2 (TestPlan.mk []) (TestPlan.mk [])
    (.ok ()) (.ok (TestPlan.mk [])) rfl rfl

/-- C6: the execution supervisor never enters the retry loop on a primary exit
of 0; propagates exit 2 unchanged when retries are disabled; turns a primary
exit 1 into overall exit 0 when the first retry fails and the second passes
under maxRetries 2, recording the retry 1 and retry 2 timeline markers; and
propagates the final retry attempt's exit code when all retries fail. -/
theorem executionSupervisor_behaviour
    (mr mrE : Nat) (re0 re reE : Nat → Nat)
    (h1 : re 1 ≠ 0) (h2 : re 2 = 0) (hmrE : 1 ≤ mrE)
    (hallE : ∀ k, 1 ≤ k → k ≤ mrE → reE k ≠ 0) (c : Nat) (hc : c ≠ 0) :
    superviseMain 0 mr re0 = (0, baseTimeline) ∧
    superviseMain 2 0 re0 = (2, baseTimeline) ∧
    superviseMain 1 2 re = (0, baseTimeline ++
      ["retry_1_start", "retry_1_end", "retry_2_start", "retry_2_end"]) ∧
    (superviseMain c mrE reE).1 = reE mrE := by
  refine ⟨by simp [superviseMain], by simp [superviseMain], ?_, ?_⟩
  · have hstep : retryFailedTests 2 re baseTimeline =
        (0, baseTimeline ++
          ["retry_1_start", "retry_1_end", "retry_2_start", "retry_2_end"]) := by
      unfold retryFailedTests
      simp only [retryLoopFrom, Nat.zero_add]
      rw [if_pos h1, if_neg (show ¬((2 : Nat) ≤ 1) by omega),
        if_neg (show ¬(re 2 ≠ 0) from fun hne => hne h2)]
      rfl
    simp only [superviseMain]
    rw [if_pos (show (1 : Nat) ≠ 0 by omega), if_neg (show ¬(2 : Nat) = 0 by omega)]
    rw [hstep]
    rfl
  · have hrt : (retryFailedTests mrE reE baseTimeline).1 = reE mrE :=
      retryLoopFrom_exhaust mrE reE mrE 0 baseTimeline (by omega) (by omega)
        (fun k hk1 hk2 => hallE k (by omega) hk2)
    unfold superviseMain
    rw [if_pos hc, if_neg (by omega : ¬mrE = 0)]
    dsimp only
    by_cases hz : (retryFailedTests mrE reE baseTimeline).1 ≠ 0
    · rw [if_pos hz]
      exact hrt
    · push_neg at hz
      rw [hrt] at hz
      exact absurd hz (hallE mrE hmrE le_rfl)

/-- Witness for C6: primary exit 0 with 3 allowed retries; primary exit 2 with
retries disabled; primary exit 1 with a failed first retry and a passing
second retry; and two always-failing retries. -/
theorem executionSupervisor_behaviour_witness :
    superviseMain 0 3 (fun _ => 0) = (0, baseTimeline) ∧
    superviseMain 2 0 (fun _ => 0) = (2, baseTimeline) ∧
    superviseMain 1 2 (fun k => if k = 1 then 7 else 0) = (0, baseTimeline ++
      ["retry_1_start", "retry_1_end", "retry_2_start", "retry_2_end"]) ∧
    (superviseMain 1 2 (fun _ => 9)).1 = 9 :=
  executionSupervisor_behaviour 3 2 (fun _ => 0) (fun k => if k = 1 then 7 else 0)
    (fun _ => 9) (by decide) (by decide) (by decide)
    (fun _ _ _ => (by decide : (9 : Nat) ≠ 0)) 1 (by decide)

/-- C7: rendering the primary command template substitutes the testExamples
placeholder positionally (a space-containing identifier staying one token),
appends the identifiers when the placeholder is absent (shown both on the
concrete Jest template and for every template whose tokens lack the
placeholder), substitutes the outputFile placeholder with the result path,
and rejects an unterminated quote at construction time. -/
theorem commandTemplate_rendering
    (cfg cfg2 : RunnerConfig) (tcs tcs2 : List String) (cmd : String)
    (w : String) (ws : List String)
    (hws : shellSplit cmd = .ok (w :: ws))
    (habs : (w :: ws).contains testExamplesPlaceholder = false) :
    commandNameAndArgs { resultPath := "out.json" }
        "run \x7b\x7btestExamples\x7d\x7d --out \x7b\x7boutputFile\x7d\x7d"
        ["a.spec", "b c.spec"]
      = .ok ("run", ["a.spec", "b c.spec", "--out", "out.json"]) ∧
    commandNameAndArgs { resultPath := "jest.json" }
        "jest \x7b\x7btestExamples\x7d\x7d --outputFile \x7b\x7boutputFile\x7d\x7d"
        ["spec/user.spec.js", "spec/billing.spec.js"]
      = .ok ("jest", ["spec/user.spec.js", "spec/billing.spec.js", "--outputFile",
          "jest.json"]) ∧
    commandNameAndArgs { resultPath := "jest.json" }
        "jest --json --outputFile \x7b\x7boutputFile\x7d\x7d"
        ["spec/user.spec.js", "spec/billing.spec.js"]
      = .ok ("jest", ["--json", "--outputFile", "jest.json", "spec/user.spec.js",
          "spec/billing.spec.js"]) ∧
    commandNameAndArgs cfg2 "jest --options '\x7b\x7btestExamples\x7d\x7d" tcs2
      = .error .unterminatedSingle ∧
    commandNameAndArgs cfg cmd tcs
      = .ok ((if w = outputFilePlaceholder then cfg.resultPath else w),
          ((ws ++ tcs).map
            (fun x => if x = outputFilePlaceholder then cfg.resultPath else x))) := by
  refine ⟨rfl, rfl, rfl, rfl, ?_⟩
  unfold commandNameAndArgs
  rw [hws]
  dsimp only
  rw [if_neg (show ¬((w :: ws).contains testExamplesPlaceholder = true) by
    intro h; rw [habs] at h; simp at h)]
  simp [List.cons_append]

/-- Witness for C7 at the template jest --json, whose tokens lack the
testExamples placeholder, with identifiers x y and z appended. -/
theorem commandTemplate_rendering_witness :
    commandNameAndArgs { resultPath := "out.json" }
        "run \x7b\x7btestExamples\x7d\x7d --out \x7b\x7boutputFile\x7d\x7d"
        ["a.spec", "b c.spec"]
      = .ok ("run", ["a.spec", "b c.spec", "--out", "out.json"]) ∧
    commandNameAndArgs { resultPath := "jest.json" }
        "jest \x7b\x7btestExamples\x7d\x7d --outputFile \x7b\x7boutputFile\x7d\x7d"
        ["spec/user.spec.js", "spec/billing.spec.js"]
      = .ok ("jest", ["spec/user.spec.js", "spec/billing.spec.js", "--outputFile",
          "jest.json"]) ∧
    commandNameAndArgs { resultPath := "jest.json" }
        "jest --json --outputFile \x7b\x7boutputFile\x7d\x7d"
        ["spec/user.spec.js", "spec/billing.spec.js"]
      = .ok ("jest", ["--json", "--outputFile", "jest.json", "spec/user.spec.js",
          "spec/billing.spec.js"]) ∧
    commandNameAndArgs { resultPath := "r.json" }
        "jest --options '\x7b\x7btestExamples\x7d\x7d" ["q"]
      = .error .unterminatedSingle ∧
    commandNameAndArgs { resultPath := "r.json" } "jest --json" ["x y", "z"]
      = .ok ("jest", ["--json", "x y", "z"]) :=
  commandTemplate_rendering { resultPath := "r.json" } { resultPath := "r.json" }
    ["x y", "z"] ["q"] "jest --json" "jest" ["--json"] rfl rfl

/-- C8: building the retry command replaces the testNamePattern placeholder
with the failed identifiers joined verbatim by a pipe and wrapped in
parentheses (no escaping of pattern-special characters), and a retry template
whose tokens lack the placeholder is rejected with the descriptive error and
no command, before any process could be spawned. -/
theorem retryTemplate_pattern_and_rejection
    (cfg : RunnerConfig) (failed : List String) (cmd : String) (ws : List String)
    (hws : shellSplit cmd = .ok ws)
    (hmiss : ws.contains testNamePatternPlaceholder = false) :
    retryCommandNameAndArgs { resultPath := "jest.json" }
        "jest --testNamePattern '\x7b\x7btestNamePattern\x7d\x7d' --json --testLocationInResults --outputFile \x7b\x7boutputFile\x7d\x7d"
        ["this will fail", "this other one will fail"]
      = .ok ("jest", ["--testNamePattern",
          "(this will fail|this other one will fail)", "--json",
          "--testLocationInResults", "--outputFile", "jest.json"]) ∧
    retryCommandNameAndArgs { resultPath := "jest.json" }
        "x --p '\x7b\x7btestNamePattern\x7d\x7d'" ["t1", "t2"]
      = .ok ("x", ["--p", "(t1|t2)"]) ∧
    retryCommandNameAndArgs { resultPath := "jest.json" }
        "x --p '\x7b\x7btestNamePattern\x7d\x7d'" ["a.b*", "c|d"]
      = .ok ("x", ["--p", "(a.b*|c|d)"]) ∧
    retryCommandNameAndArgs cfg cmd failed
      = .error (.missingPlaceholder
          "couldn't find '\x7b\x7btestNamePattern\x7d\x7d' sentinel in retry command") := by
  refine ⟨rfl, rfl, rfl, ?_⟩
  unfold retryCommandNameAndArgs
  rw [hws]
  dsimp only
  rw [if_neg (show ¬(ws.contains testNamePatternPlaceholder = true) by
    intro h; rw [hmiss] at h; simp at h)]

/-- Witness for C8 at the retry template jest --json, whose tokens lack the
name-pattern placeholder. -/
theorem retryTemplate_pattern_and_rejection_witness :
    retryCommandNameAndArgs { resultPath := "jest.json" }
        "jest --testNamePattern '\x7b\x7btestNamePattern\x7d\x7d' --json --testLocationInResults --outputFile \x7b\x7boutputFile\x7d\x7d"
        ["this will fail", "this other one will fail"]
      = .ok ("jest", ["--testNamePattern",
          "(this will fail|this other one will fail)", "--json",
          "--testLocationInResults", "--outputFile", "jest.json"]) ∧
    retryCommandNameAndArgs { resultPath := "jest.json" }
        "x --p '\x7b\x7btestNamePattern\x7d\x7d'" ["t1", "t2"]
      = .ok ("x", ["--p", "(t1|t2)"]) ∧
    retryCommandNameAndArgs { resultPath := "jest.json" }
        "x --p '\x7b\x7btestNamePattern\x7d\x7d'" ["a.b*", "c|d"]
      = .ok ("x", ["--p", "(a.b*|c|d)"]) ∧
    retryCommandNameAndArgs { resultPath := "r.json" } "jest --json" ["t"]
      = .error (.missingPlaceholder
          "couldn't find '\x7b\x7btestNamePattern\x7d\x7d' sentinel in retry command") :=
  retryTemplate_pattern_and_rejection { resultPath := "r.json" } ["t"] "jest --json"
    ["jest", "--json"] rfl rfl

/-- C9: with a valid configuration, passing the version flag prints the
version and exits 0 with no other observable effect: no file discovery, no
network call, no spawned process. -/
theorem versionFlag_no_work (inp : MainInput)
    (hcfg : inp.configValid = true) (hv : inp.versionFlag = true) :
    mainTrace inp = ([MainEffect.printVersion], 0) := by
  unfold mainTrace
  rw [hcfg, hv]
  simp

/-- Witness for C9 at a concrete environment with the version flag set. -/
theorem versionFlag_no_work_witness :
    mainTrace ⟨true, true, .ok [], .ok none, .ok (), .ok (TestPlan.mk []), 1, 0,
      true, true, 0, 0, fun _ => 0⟩ = ([MainEffect.printVersion], 0) :=
  versionFlag_no_work ⟨true, true, .ok [], .ok none, .ok (), .ok (TestPlan.mk []),
    1, 0, true, true, 0, 0, fun _ => 0⟩ rfl rfl

/-- C10: when the string form of the configured node index is not a key of the
acquired plan's task mapping, the lookup yields the zero-value Task and main
proceeds to build and spawn the test command with an empty test list instead
of reporting an error. -/
theorem missingNodeKey_runs_empty
    (inp : MainInput) (tp : TestPlan) (files : List String)
    (hcfg : inp.configValid = true) (hv : inp.versionFlag = false)
    (hgf : inp.getFilesResult = .ok files)
    (hfetch : fetchOrCreateTestPlan inp.fetchResult inp.paramsResult inp.createResult
      files inp.parallelism = .ok tp)
    (hkey : (toString inp.nodeIndex) ∉ tp.tasks.map Prod.fst)
    (hcmd : inp.commandOk = true) (hstart : inp.startOk = true) :
    lookupTask tp (toString inp.nodeIndex) = Task.mk [] ∧
    mainTrace inp = ([MainEffect.getFiles, MainEffect.networkCall,
      MainEffect.spawnProcess [], MainEffect.networkCall],
      (superviseMain inp.primaryExit inp.maxRetries inp.retryExit).1) := by
  have hfind : tp.tasks.find? (fun kv => kv.1 = toString inp.nodeIndex) = none := by
    rw [List.find?_eq_none]
    intro kv hkv hdec
    have hk1 : kv.1 = toString inp.nodeIndex := of_decide_eq_true hdec
    exact hkey (List.mem_map.mpr ⟨kv, hkv, hk1⟩)
  have hlook : lookupTask tp (toString inp.nodeIndex) = Task.mk [] := by
    unfold lookupTask
    rw [hfind]
  refine ⟨hlook, ?_⟩
  unfold mainTrace
  rw [hcfg, hv]
  simp [hgf, hfetch, hlook, hcmd, hstart]

/-- Witness for C10: a plan holding only worker key 0, on a worker with node
index 3. -/
theorem missingNodeKey_runs_empty_witness :
    lookupTask (TestPlan.mk [("0", Task.mk [TestCase.mk "f1"])]) (toString (3 : Nat))
      = Task.mk [] ∧
    mainTrace ⟨true, false, .ok ["f1"],
        .ok (some (TestPlan.mk [("0", Task.mk [TestCase.mk "f1"])])), .ok (),
        .ok (TestPlan.mk []), 1, 3, true, true, 0, 0, fun _ => 0⟩
      = ([MainEffect.getFiles, MainEffect.networkCall, MainEffect.spawnProcess [],
          MainEffect.networkCall], (superviseMain 0 0 (fun _ => 0)).1) :=
  missingNodeKey_runs_empty
    ⟨true, false, .ok ["f1"], .ok (some (TestPlan.mk [("0", Task.mk [TestCase.mk "f1"])])),
      .ok (), .ok (TestPlan.mk []), 1, 3, true, true, 0, 0, fun _ => 0⟩
    (TestPlan.mk [("0", Task.mk [TestCase.mk "f1"])]) ["f1"]
    rfl rfl rfl rfl (by decide) rfl rfl

end TestEngineClient
